import Mathlib

/-
Verification development for the software 3D renderer in
src/src/main.rs and src/src/shaders.rs ("Space Travel").

Modelling conventions:
* f32 arithmetic is embedded as exact rational arithmetic (ℚ); decimal
  literals of the source are taken at face value (0.9 ↦ 9/10, etc.).
* External library functions with no source in the repository
  (std sin/cos, the FastNoiseLite sampler, the rand StdRng draw, the
  Color-to-hex packing) are abstracted as explicit function parameters
  or function-valued fields; every theorem quantifies over them, so no
  result depends on a particular choice.
* The repository declares modules color, fragment, vertex, framebuffer
  and triangle whose files are not under src/; the corresponding data
  is modelled from the spec (doc comments on those definitions say so).
-/

namespace SpaceTravel

/-- 3-component vector of rationals, standing in for nalgebra_glm Vec3 of f32. -/
structure Vec3 where
  x : ℚ
  y : ℚ
  z : ℚ
deriving DecidableEq

/-- 4-component homogeneous vector, standing in for nalgebra_glm Vec4 of f32. -/
structure Vec4 where
  x : ℚ
  y : ℚ
  z : ℚ
  w : ℚ
deriving DecidableEq

/-- Row-major 3×3 matrix, standing in for nalgebra_glm Mat3 of f32.
Field `aij` is the entry in row i, column j. -/
structure Mat3 where
  a00 : ℚ
  a01 : ℚ
  a02 : ℚ
  a10 : ℚ
  a11 : ℚ
  a12 : ℚ
  a20 : ℚ
  a21 : ℚ
  a22 : ℚ
deriving DecidableEq

/-- Row-major 4×4 matrix, standing in for nalgebra_glm Mat4 of f32.
Field `mij` is the entry in row i, column j. -/
structure Mat4 where
  m00 : ℚ
  m01 : ℚ
  m02 : ℚ
  m03 : ℚ
  m10 : ℚ
  m11 : ℚ
  m12 : ℚ
  m13 : ℚ
  m20 : ℚ
  m21 : ℚ
  m22 : ℚ
  m23 : ℚ
  m30 : ℚ
  m31 : ℚ
  m32 : ℚ
  m33 : ℚ
deriving DecidableEq

/-- Matrix–vector product for 4×4 matrices (nalgebra `Mat4 * Vec4`). -/
def mat4MulVec (m : Mat4) (v : Vec4) : Vec4 :=
  ⟨m.m00 * v.x + m.m01 * v.y + m.m02 * v.z + m.m03 * v.w,
   m.m10 * v.x + m.m11 * v.y + m.m12 * v.z + m.m13 * v.w,
   m.m20 * v.x + m.m21 * v.y + m.m22 * v.z + m.m23 * v.w,
   m.m30 * v.x + m.m31 * v.y + m.m32 * v.z + m.m33 * v.w⟩

/-- Matrix–matrix product for 4×4 matrices (nalgebra `Mat4 * Mat4`). -/
def mat4Mul (m n : Mat4) : Mat4 :=
  ⟨m.m00 * n.m00 + m.m01 * n.m10 + m.m02 * n.m20 + m.m03 * n.m30,
   m.m00 * n.m01 + m.m01 * n.m11 + m.m02 * n.m21 + m.m03 * n.m31,
   m.m00 * n.m02 + m.m01 * n.m12 + m.m02 * n.m22 + m.m03 * n.m32,
   m.m00 * n.m03 + m.m01 * n.m13 + m.m02 * n.m23 + m.m03 * n.m33,
   m.m10 * n.m00 + m.m11 * n.m10 + m.m12 * n.m20 + m.m13 * n.m30,
   m.m10 * n.m01 + m.m11 * n.m11 + m.m12 * n.m21 + m.m13 * n.m31,
   m.m10 * n.m02 + m.m11 * n.m12 + m.m12 * n.m22 + m.m13 * n.m32,
   m.m10 * n.m03 + m.m11 * n.m13 + m.m12 * n.m23 + m.m13 * n.m33,
   m.m20 * n.m00 + m.m21 * n.m10 + m.m22 * n.m20 + m.m23 * n.m30,
   m.m20 * n.m01 + m.m21 * n.m11 + m.m22 * n.m21 + m.m23 * n.m31,
   m.m20 * n.m02 + m.m21 * n.m12 + m.m22 * n.m22 + m.m23 * n.m32,
   m.m20 * n.m03 + m.m21 * n.m13 + m.m22 * n.m23 + m.m23 * n.m33,
   m.m30 * n.m00 + m.m31 * n.m10 + m.m32 * n.m20 + m.m33 * n.m30,
   m.m30 * n.m01 + m.m31 * n.m11 + m.m32 * n.m21 + m.m33 * n.m31,
   m.m30 * n.m02 + m.m31 * n.m12 + m.m32 * n.m22 + m.m33 * n.m32,
   m.m30 * n.m03 + m.m31 * n.m13 + m.m32 * n.m23 + m.m33 * n.m33⟩

/-- The 4×4 identity matrix. -/
def mat4Identity : Mat4 :=
  ⟨1, 0, 0, 0, 0, 1, 0, 0, 0, 0, 1, 0, 0, 0, 0, 1⟩

/-- The 3×3 identity matrix (nalgebra `Mat3::identity()`). -/
def mat3Identity : Mat3 :=
  ⟨1, 0, 0, 0, 1, 0, 0, 0, 1⟩

/-- Upper-left 3×3 block of a 4×4 matrix (nalgebra_glm `mat4_to_mat3`). -/
def mat4ToMat3 (m : Mat4) : Mat3 :=
  ⟨m.m00, m.m01, m.m02, m.m10, m.m11, m.m12, m.m20, m.m21, m.m22⟩

/-- Transpose of a 3×3 matrix. -/
def mat3Transpose (m : Mat3) : Mat3 :=
  ⟨m.a00, m.a10, m.a20, m.a01, m.a11, m.a21, m.a02, m.a12, m.a22⟩

/-- Matrix–vector product for 3×3 matrices (nalgebra `Mat3 * Vec3`). -/
def mat3MulVec (m : Mat3) (v : Vec3) : Vec3 :=
  ⟨m.a00 * v.x + m.a01 * v.y + m.a02 * v.z,
   m.a10 * v.x + m.a11 * v.y + m.a12 * v.z,
   m.a20 * v.x + m.a21 * v.y + m.a22 * v.z⟩

/-- Matrix–matrix product for 3×3 matrices. -/
def mat3Mul (m n : Mat3) : Mat3 :=
  ⟨m.a00 * n.a00 + m.a01 * n.a10 + m.a02 * n.a20,
   m.a00 * n.a01 + m.a01 * n.a11 + m.a02 * n.a21,
   m.a00 * n.a02 + m.a01 * n.a12 + m.a02 * n.a22,
   m.a10 * n.a00 + m.a11 * n.a10 + m.a12 * n.a20,
   m.a10 * n.a01 + m.a11 * n.a11 + m.a12 * n.a21,
   m.a10 * n.a02 + m.a11 * n.a12 + m.a12 * n.a22,
   m.a20 * n.a00 + m.a21 * n.a10 + m.a22 * n.a20,
   m.a20 * n.a01 + m.a21 * n.a11 + m.a22 * n.a21,
   m.a20 * n.a02 + m.a21 * n.a12 + m.a22 * n.a22⟩

/-- Determinant of a 3×3 matrix. -/
def mat3Det (m : Mat3) : ℚ :=
  m.a00 * (m.a11 * m.a22 - m.a12 * m.a21)
    - m.a01 * (m.a10 * m.a22 - m.a12 * m.a20)
    + m.a02 * (m.a10 * m.a21 - m.a11 * m.a20)

/-- Inverse of a 3×3 matrix by the adjugate formula; only meaningful when
the determinant is nonzero (division by a zero determinant yields junk,
exactly like the guarded nalgebra path is never taken then). -/
def mat3Inverse (m : Mat3) : Mat3 :=
  ⟨(m.a11 * m.a22 - m.a12 * m.a21) / mat3Det m,
   (m.a02 * m.a21 - m.a01 * m.a22) / mat3Det m,
   (m.a01 * m.a12 - m.a02 * m.a11) / mat3Det m,
   (m.a12 * m.a20 - m.a10 * m.a22) / mat3Det m,
   (m.a00 * m.a22 - m.a02 * m.a20) / mat3Det m,
   (m.a02 * m.a10 - m.a00 * m.a12) / mat3Det m,
   (m.a10 * m.a21 - m.a11 * m.a20) / mat3Det m,
   (m.a01 * m.a20 - m.a00 * m.a21) / mat3Det m,
   (m.a00 * m.a11 - m.a01 * m.a10) / mat3Det m⟩

/-- nalgebra `try_inverse`: `some` of the inverse when the matrix is
invertible (nonzero determinant), `none` otherwise. -/
def mat3TryInverse (m : Mat3) : Option Mat3 :=
  if mat3Det m = 0 then none else some (mat3Inverse m)

/-- Modelled from the spec: color.rs is not under src/. Spec section 3:
"Color: an RGB triple with component-wise arithmetic (scale by scalar,
linear interpolation between two colors, addition) used purely as a
value type with no identity." Components are exact rationals. -/
structure Color where
  r : ℚ
  g : ℚ
  b : ℚ
deriving DecidableEq

/-- Component-wise scaling of a color by a scalar (the source's
`Color * f32`, modelled from the spec's "scale by scalar"). -/
def Color.scale (c : Color) (s : ℚ) : Color :=
  ⟨c.r * s, c.g * s, c.b * s⟩

instance : HMul Color ℚ Color :=
  ⟨Color.scale⟩

/-- Component-wise linear interpolation between two colors (the source's
`Color::lerp`, modelled from the spec's "linear interpolation between two
colors"). -/
def Color.lerp (c d : Color) (t : ℚ) : Color :=
  ⟨c.r + (d.r - c.r) * t, c.g + (d.g - c.g) * t, c.b + (d.b - c.b) * t⟩

/-- Modelled from the spec: fragment.rs is not under src/. Spec section 3:
"Fragment: screen-space position (x,y pixel coordinates, depth z), a
vertex_position used as shading-space coordinate, a scalar intensity,
and the interpolated depth." -/
structure Fragment where
  position : Vec3
  vertex_position : Vec3
  intensity : ℚ
  depth : ℚ
deriving DecidableEq

/-- Mirror of `Uniforms` in src/src/main.rs. The FastNoiseLite instance
(external library, seeded deterministically) is modelled by its two
sampling functions. -/
structure Uniforms where
  model_matrix : Mat4
  view_matrix : Mat4
  projection_matrix : Mat4
  viewport_matrix : Mat4
  time : ℕ
  noise2d : ℚ → ℚ → ℚ
  noise3d : ℚ → ℚ → ℚ → ℚ

/-- Mirror of `Vertex` (vertex.rs is not under src/; the field list is
the one vertex_shader constructs and the spec's section 3 describes). -/
structure Vertex where
  position : Vec3
  normal : Vec3
  tex_coords : ℚ × ℚ
  color : Color
  transformed_position : Vec3
  transformed_normal : Vec3

/-- Rust f32 `clamp(lo, hi)`. -/
def clampQ (v lo hi : ℚ) : ℚ :=
  min (max v lo) hi

/-- Embedding of `vertex_shader` from src/src/shaders.rs lines 13-46. -/
def vertex_shader (vertex : Vertex) (uniforms : Uniforms) : Vertex :=
  let position : Vec4 := ⟨vertex.position.x, vertex.position.y, vertex.position.z, 1⟩
  let transformed :=
    mat4MulVec
      (mat4Mul (mat4Mul uniforms.projection_matrix uniforms.view_matrix) uniforms.model_matrix)
      position
  let w := transformed.w
  let transformed_position : Vec4 :=
    ⟨transformed.x / w, transformed.y / w, transformed.z / w, 1⟩
  let screen_position := mat4MulVec uniforms.viewport_matrix transformed_position
  let model_mat3 := mat4ToMat3 uniforms.model_matrix
  let normal_matrix := (mat3TryInverse (mat3Transpose model_mat3)).getD mat3Identity
  let transformed_normal := mat3MulVec normal_matrix vertex.normal
  { position := vertex.position
    normal := vertex.normal
    tex_coords := vertex.tex_coords
    color := vertex.color
    transformed_position := ⟨screen_position.x, screen_position.y, screen_position.z⟩
    transformed_normal := transformed_normal }

/-- Spec section 4.1 step 1: "Homogenize model-space position to 4D (w=1)". -/
def homogenize (p : Vec3) : Vec4 :=
  ⟨p.x, p.y, p.z, 1⟩

/-- Spec section 4.1 step 2: "Multiply by projection × view × model (that
order) to reach clip space", phrased as successive matrix applications. -/
def to_clip_space (u : Uniforms) (p : Vec4) : Vec4 :=
  mat4MulVec u.projection_matrix (mat4MulVec u.view_matrix (mat4MulVec u.model_matrix p))

/-- Spec section 4.1 step 3: "Perspective-divide x,y,z by clip-space w",
re-homogenized with w = 1. -/
def perspective_divide (v : Vec4) : Vec4 :=
  ⟨v.x / v.w, v.y / v.w, v.z / v.w, 1⟩

/-- Drop the w component (the source keeps x,y,z of the screen position). -/
def vec4ToVec3 (v : Vec4) : Vec3 :=
  ⟨v.x, v.y, v.z⟩

/-- Embedding of `emissive_shader` (shaders.rs lines 67-80). -/
def emissive_shader (fragment : Fragment) (_uniforms : Uniforms) : Color :=
  let intensity := fragment.intensity
  let base_color : Color := ⟨255, 223, 0⟩
  let emission_color : Color := (⟨255, 255, 102⟩ : Color) * (intensity * 2)
  let final_color := base_color.lerp emission_color 0.9
  final_color

/-- Embedding of `earth_shader` (shaders.rs lines 82-104). `sinf` models
the std f32 sine. -/
def earth_shader (sinf : ℚ → ℚ) (fragment : Fragment) (uniforms : Uniforms) : Color :=
  let y := fragment.vertex_position.y
  let color_ocean : Color := ⟨0, 0, 255⟩
  let color_land : Color := ⟨34, 139, 34⟩
  let color_cloud : Color := ⟨255, 255, 255⟩
  let time := (uniforms.time : ℚ) * 0.01
  let band_pattern := clampQ (sinf (y * 10 + time) * 0.5 + 0.5) 0 1
  let base_color :=
    if band_pattern < 0.4 then color_ocean
    else if band_pattern < 0.7 then color_land
    else color_cloud
  base_color

/-- Embedding of `uranus_shader` (shaders.rs lines 106-125). -/
def uranus_shader (sinf : ℚ → ℚ) (fragment : Fragment) (uniforms : Uniforms) : Color :=
  let y := fragment.vertex_position.y
  let color_uranus_base : Color := ⟨0, 255, 255⟩
  let color_uranus_dark : Color := ⟨0, 128, 128⟩
  let time := (uniforms.time : ℚ) * 0.02
  let band_pattern := clampQ (sinf (y * 10 + time) * 0.5 + 0.5) 0 1
  let base_color :=
    if band_pattern < 0.5 then color_uranus_base else color_uranus_dark
  base_color

/-- Embedding of `neptune_shader` (shaders.rs lines 126-145). -/
def neptune_shader (sinf : ℚ → ℚ) (fragment : Fragment) (uniforms : Uniforms) : Color :=
  let y := fragment.vertex_position.y
  let color_neptune_base : Color := ⟨0, 0, 255⟩
  let color_neptune_dark : Color := ⟨0, 0, 139⟩
  let time := (uniforms.time : ℚ) * 0.02
  let band_pattern := clampQ (sinf (y * 10 + time) * 0.5 + 0.5) 0 1
  let base_color :=
    if band_pattern < 0.5 then color_neptune_base else color_neptune_dark
  base_color

/-- Embedding of `venus_shader` (shaders.rs lines 149-168). `cosf` models
the std f32 cosine. -/
def venus_shader (sinf cosf : ℚ → ℚ) (fragment : Fragment) (uniforms : Uniforms) : Color :=
  let x := fragment.vertex_position.x
  let y := fragment.vertex_position.y
  let color_soft_yellow : Color := ⟨255, 228, 181⟩
  let color_light_gray : Color := ⟨220, 220, 220⟩
  let color_white : Color := ⟨255, 250, 240⟩
  let time := (uniforms.time : ℚ) * 0.01
  let wave_pattern_x := clampQ (sinf (x * 3 + time) * 0.5 + 0.5) 0 1
  let wave_pattern_y := clampQ (cosf (y * 3 + time) * 0.5 + 0.5) 0 1
  let base_color := color_soft_yellow.lerp color_light_gray wave_pattern_x
  let final_color := base_color.lerp color_white wave_pattern_y
  final_color

/-- Embedding of `jupiter_shader` (shaders.rs lines 170-204). -/
def jupiter_shader (sinf : ℚ → ℚ) (fragment : Fragment) (uniforms : Uniforms) : Color :=
  let x := fragment.vertex_position.x
  let y := fragment.vertex_position.y
  let color_light_brown : Color := ⟨210, 180, 140⟩
  let color_dark_brown : Color := ⟨139, 69, 19⟩
  let color_white : Color := ⟨245, 245, 245⟩
  let color_red_spot : Color := ⟨255, 69, 0⟩
  let time := (uniforms.time : ℚ) * 0.02
  let band_pattern := clampQ (sinf (y * 10 + time) * 0.5 + 0.5) 0 1
  let base_color :=
    if band_pattern < 0.3 then color_light_brown
    else if band_pattern < 0.6 then color_white
    else color_dark_brown
  let red_spot_x := (x - 0.3) ^ 2 / 0.1
  let red_spot_y := (y + 0.2) ^ 2 / 0.2
  let red_spot_intensity := 1 - clampQ (red_spot_x + red_spot_y) 0 1
  let final_color :=
    if red_spot_intensity > 0.7 then color_red_spot.lerp base_color red_spot_intensity
    else base_color
  final_color

/-- Embedding of `saturn_shader` (shaders.rs lines 206-236). -/
def saturn_shader (sinf : ℚ → ℚ) (fragment : Fragment) (uniforms : Uniforms) : Color :=
  let y := fragment.vertex_position.y
  let color_light_brown : Color := ⟨205, 133, 63⟩
  let color_dark_brown : Color := ⟨139, 69, 19⟩
  let color_ring : Color := ⟨160, 160, 160⟩
  let color_white : Color := ⟨245, 245, 245⟩
  let time := (uniforms.time : ℚ) * 0.02
  let band_pattern := clampQ (sinf (y * 10 + time) * 0.5 + 0.5) 0 1
  let base_color :=
    if band_pattern < 0.3 then color_light_brown
    else if band_pattern < 0.6 then color_white
    else color_dark_brown
  let ring_pattern := clampQ (abs y - 0.5) 0 1
  let final_color := if ring_pattern > 0.3 then color_ring else base_color
  final_color

/-- Embedding of `mars_shader` (shaders.rs lines 238-265). -/
def mars_shader (sinf : ℚ → ℚ) (fragment : Fragment) (uniforms : Uniforms) : Color :=
  let x := fragment.vertex_position.x
  let y := fragment.vertex_position.y
  let color_red : Color := ⟨204, 102, 51⟩
  let color_dark_red : Color := ⟨139, 69, 19⟩
  let color_rocky : Color := ⟨160, 82, 45⟩
  let time := (uniforms.time : ℚ) * 0.05
  let band_pattern := clampQ (sinf (y * 10 + time) * 0.5 + 0.5) 0 1
  let base_color := if band_pattern < 0.5 then color_red else color_dark_red
  let rocky_pattern := clampQ (sinf (x * y + time) * 0.5 + 0.5) 0 1
  let final_color := if rocky_pattern > 0.7 then color_rocky else base_color
  final_color

/-- Embedding of `moon_shader` (shaders.rs lines 275-300). -/
def moon_shader (fragment : Fragment) (uniforms : Uniforms) : Color :=
  let zoom : ℚ := 50
  let x := fragment.vertex_position.x
  let y := fragment.vertex_position.y
  let t := (uniforms.time : ℚ) * 0.1
  let surface_noise := uniforms.noise2d (x * zoom + t) (y * zoom + t)
  let gray_color : Color := ⟨200, 200, 200⟩
  let crater_color : Color := ⟨150, 150, 150⟩
  let crater_threshold : ℚ := 0.4
  let base_color := if surface_noise > crater_threshold then gray_color else crater_color
  base_color * fragment.intensity

/-- Rust `seed.abs() as u64` on an f32 `seed`: truncate the absolute value
toward zero and saturate at the u64 range. -/
def absToU64 (q : ℚ) : ℕ :=
  min ⌊|q|⌋.toNat (2 ^ 64 - 1)

/-- Embedding of `black_and_white` (shaders.rs lines 329-343). `rngDraw`
models seeding a rand StdRng from a u64 and drawing one value in 0..=100
(`StdRng::seed_from_u64` followed by `gen_range`, an external library,
deterministic in the seed). -/
def black_and_white (rngDraw : ℕ → ℕ) (fragment : Fragment) (uniforms : Uniforms) : Color :=
  let seed := (uniforms.time : ℚ) * fragment.vertex_position.y * fragment.vertex_position.x
  let random_number := rngDraw (absToU64 seed)
  let black_or_white : Color :=
    if random_number < 50 then ⟨0, 0, 0⟩ else ⟨255, 255, 255⟩
  black_or_white * fragment.intensity

/-- Embedding of `dalmata_shader` (shaders.rs lines 345-368). -/
def dalmata_shader (fragment : Fragment) (uniforms : Uniforms) : Color :=
  let zoom : ℚ := 100
  let ox : ℚ := 0
  let oy : ℚ := 0
  let x := fragment.vertex_position.x
  let y := fragment.vertex_position.y
  let noise_value := uniforms.noise2d ((x + ox) * zoom) ((y + oy) * zoom)
  let spot_threshold : ℚ := 0.5
  let spot_color : Color := ⟨255, 255, 255⟩
  let base_color : Color := ⟨0, 0, 0⟩
  let noise_color := if noise_value < spot_threshold then spot_color else base_color
  noise_color * fragment.intensity

/-- Embedding of `cloud_shader` (shaders.rs lines 370-393). -/
def cloud_shader (fragment : Fragment) (uniforms : Uniforms) : Color :=
  let zoom : ℚ := 100
  let ox : ℚ := 100
  let oy : ℚ := 100
  let x := fragment.vertex_position.x
  let y := fragment.vertex_position.y
  let t := (uniforms.time : ℚ) * 0.5
  let noise_value := uniforms.noise2d (x * zoom + ox + t) (y * zoom + oy)
  let cloud_threshold : ℚ := 0.5
  let cloud_color : Color := ⟨255, 255, 255⟩
  let sky_color : Color := ⟨30, 97, 145⟩
  let noise_color := if noise_value > cloud_threshold then cloud_color else sky_color
  noise_color * fragment.intensity

/-- Embedding of `cellular_shader` (shaders.rs lines 395-424). -/
def cellular_shader (fragment : Fragment) (uniforms : Uniforms) : Color :=
  let zoom : ℚ := 30
  let ox : ℚ := 50
  let oy : ℚ := 50
  let x := fragment.vertex_position.x
  let y := fragment.vertex_position.y
  let cell_noise_value := abs (uniforms.noise2d (x * zoom + ox) (y * zoom + oy))
  let cell_color_1 : Color := ⟨85, 107, 47⟩
  let cell_color_2 : Color := ⟨124, 252, 0⟩
  let cell_color_3 : Color := ⟨34, 139, 34⟩
  let cell_color_4 : Color := ⟨173, 255, 47⟩
  let final_color :=
    if cell_noise_value < 0.15 then cell_color_1
    else if cell_noise_value < 0.7 then cell_color_2
    else if cell_noise_value < 0.75 then cell_color_3
    else cell_color_4
  final_color * fragment.intensity

/-- Embedding of `lava_shader` (shaders.rs lines 426-464). -/
def lava_shader (sinf : ℚ → ℚ) (fragment : Fragment) (uniforms : Uniforms) : Color :=
  let bright_color : Color := ⟨255, 240, 0⟩
  let dark_color : Color := ⟨130, 20, 0⟩
  let position : Vec3 :=
    ⟨fragment.vertex_position.x, fragment.vertex_position.y, fragment.depth⟩
  let base_frequency : ℚ := 0.2
  let pulsate_amplitude : ℚ := 0.5
  let t := (uniforms.time : ℚ) * 0.01
  let pulsate := sinf (t * base_frequency) * pulsate_amplitude
  let zoom : ℚ := 1000
  let noise_value1 :=
    uniforms.noise3d (position.x * zoom) (position.y * zoom) ((position.z + pulsate) * zoom)
  let noise_value2 :=
    uniforms.noise3d ((position.x + 1000) * zoom) ((position.y + 1000) * zoom)
      ((position.z + 1000 + pulsate) * zoom)
  let noise_value := (noise_value1 + noise_value2) * 0.5
  let color := dark_color.lerp bright_color noise_value
  color * fragment.intensity

/-- Embedding of `fragment_shader` (shaders.rs lines 50-62). The process-wide
mutable `SHADER_INDEX` is passed as the explicit argument `shader_index`;
the match arms are in source order with the source's catch-all default. -/
def fragment_shader (rngDraw : ℕ → ℕ) (sinf : ℚ → ℚ) (shader_index : ℕ)
    (fragment : Fragment) (uniforms : Uniforms) : Color :=
  match shader_index with
  | 5 => black_and_white rngDraw fragment uniforms
  | 1 => dalmata_shader fragment uniforms
  | 2 => cloud_shader fragment uniforms
  | 3 => cellular_shader fragment uniforms
  | 4 => lava_shader sinf fragment uniforms
  | 6 => moon_shader fragment uniforms
  | _ => cellular_shader fragment uniforms

/-- Embedding of `fragment_shader2` (shaders.rs lines 63-65). -/
def fragment_shader2 (fragment : Fragment) (uniforms : Uniforms) : Color :=
  emissive_shader fragment uniforms

/-- Embedding of `switch_shader` (shaders.rs lines 269-273) acting on the
u8 state `SHADER_INDEX`: the increment wraps at 256 (release-mode u8
semantics) and the result is reduced modulo the variant count 7. -/
def switch_shader (s : ℕ) : ℕ :=
  ((s + 1) % 256) % 7

/-- Modelled from the spec: framebuffer.rs is not under src/. Spec
section 3: "Framebuffer: owns a flat pixel-color array (row-major,
width×height) and a parallel depth array of the same dimensions, plus a
current draw color and current emission color scratch state used by
the point-write API." Pixels are hex color words, as handed to the
display. -/
structure Framebuffer where
  width : ℕ
  height : ℕ
  buffer : List ℕ
  zbuffer : List ℚ
  background_color : ℕ
  current_color : ℕ
  emission_color : ℕ
deriving DecidableEq

/-- Modelled from the spec (section 4.4): `set_current_color(c)` is
"scoped mutable state consumed by the next point calls". -/
def Framebuffer.set_current_color (fb : Framebuffer) (c : ℕ) : Framebuffer :=
  { fb with current_color := c }

/-- Modelled from the spec (section 4.4): `set_emission_color(c)`. -/
def Framebuffer.set_emission_color (fb : Framebuffer) (c : ℕ) : Framebuffer :=
  { fb with emission_color := c }

/-- Modelled from the spec (section 4.4): `point(x, y, depth)` "writes the
current draw color at (x,y) iff depth is nearer than (or, per the existing
tie-break, equal-or-nearer — ties favor the most recent write) the stored
depth at that cell; on acceptance, updates both the color and depth
buffers; on rejection, no mutation occurs." Row-major cell index
`y * width + x`; smaller depth is nearer. -/
def Framebuffer.point (fb : Framebuffer) (x y : ℕ) (depth : ℚ) : Framebuffer :=
  let idx := y * fb.width + x
  if depth ≤ fb.zbuffer.getD idx 0 then
    { fb with
        buffer := fb.buffer.set idx fb.current_color
        zbuffer := fb.zbuffer.set idx depth }
  else
    fb

/-- Rust `f32 as usize`: a saturating cast that truncates toward zero,
sends every negative (and NaN) input to 0, and caps at usize::MAX. -/
def floatToUsize (q : ℚ) : ℕ :=
  min ⌊q⌋.toNat (2 ^ 64 - 1)

/-- Embedding of the fragment-processing loop body of `render`
(main.rs lines 130-140): convert the fragment's screen position to usize,
and only inside the bounds check shade the fragment, set the draw color
and issue the depth-tested point write. `toHex` models `Color::to_hex`
(color.rs is not under src/). -/
def process_fragment (rngDraw : ℕ → ℕ) (sinf : ℚ → ℚ) (shader_index : ℕ)
    (toHex : Color → ℕ) (uniforms : Uniforms)
    (framebuffer : Framebuffer) (fragment : Fragment) : Framebuffer :=
  let x := floatToUsize fragment.position.x
  let y := floatToUsize fragment.position.y
  if x < framebuffer.width ∧ y < framebuffer.height then
    let shaded_color := fragment_shader rngDraw sinf shader_index fragment uniforms
    let color := toHex shaded_color
    (framebuffer.set_current_color color).point x y fragment.depth
  else
    framebuffer

/-- Embedding of the fragment-processing loop body of `render_sol`
(main.rs lines 169-183): identical to `process_fragment` except that it
shades with `fragment_shader2` and also sets the emission color 0xFFFF00
inside the bounds check before the point write. -/
def process_fragment_sol (toHex : Color → ℕ) (uniforms : Uniforms)
    (framebuffer : Framebuffer) (fragment : Fragment) : Framebuffer :=
  let x := floatToUsize fragment.position.x
  let y := floatToUsize fragment.position.y
  if x < framebuffer.width ∧ y < framebuffer.height then
    let shaded_color := fragment_shader2 fragment uniforms
    let color := toHex shaded_color
    ((framebuffer.set_current_color color).set_emission_color 0xFFFF00).point x y fragment.depth
  else
    framebuffer

/-- Embedding of the fragment-processing loop body of `render_venus`
(main.rs lines 186-225): the same conversion and bounds check as
`process_fragment`, shading with `venus_shader`. -/
def process_fragment_venus (sinf cosf : ℚ → ℚ) (toHex : Color → ℕ) (uniforms : Uniforms)
    (framebuffer : Framebuffer) (fragment : Fragment) : Framebuffer :=
  let x := floatToUsize fragment.position.x
  let y := floatToUsize fragment.position.y
  if x < framebuffer.width ∧ y < framebuffer.height then
    let shaded_color := venus_shader sinf cosf fragment uniforms
    let color := toHex shaded_color
    (framebuffer.set_current_color color).point x y fragment.depth
  else
    framebuffer

/-- Embedding of the fragment-processing loop body of `render_jupiter`
(main.rs lines 227-261), shading with `jupiter_shader`. -/
def process_fragment_jupiter (sinf : ℚ → ℚ) (toHex : Color → ℕ) (uniforms : Uniforms)
    (framebuffer : Framebuffer) (fragment : Fragment) : Framebuffer :=
  let x := floatToUsize fragment.position.x
  let y := floatToUsize fragment.position.y
  if x < framebuffer.width ∧ y < framebuffer.height then
    let shaded_color := jupiter_shader sinf fragment uniforms
    let color := toHex shaded_color
    (framebuffer.set_current_color color).point x y fragment.depth
  else
    framebuffer

/-- Embedding of the fragment-processing loop body of `render_saturn`
(main.rs lines 263-297), shading with `saturn_shader`. -/
def process_fragment_saturn (sinf : ℚ → ℚ) (toHex : Color → ℕ) (uniforms : Uniforms)
    (framebuffer : Framebuffer) (fragment : Fragment) : Framebuffer :=
  let x := floatToUsize fragment.position.x
  let y := floatToUsize fragment.position.y
  if x < framebuffer.width ∧ y < framebuffer.height then
    let shaded_color := saturn_shader sinf fragment uniforms
    let color := toHex shaded_color
    (framebuffer.set_current_color color).point x y fragment.depth
  else
    framebuffer

/-- Embedding of the fragment-processing loop body of `render_mars`
(main.rs lines 299-333), shading with `mars_shader`. -/
def process_fragment_mars (sinf : ℚ → ℚ) (toHex : Color → ℕ) (uniforms : Uniforms)
    (framebuffer : Framebuffer) (fragment : Fragment) : Framebuffer :=
  let x := floatToUsize fragment.position.x
  let y := floatToUsize fragment.position.y
  if x < framebuffer.width ∧ y < framebuffer.height then
    let shaded_color := mars_shader sinf fragment uniforms
    let color := toHex shaded_color
    (framebuffer.set_current_color color).point x y fragment.depth
  else
    framebuffer

/-- Embedding of the fragment-processing loop body of `render_earth`
(main.rs lines 335-369), shading with `earth_shader`. -/
def process_fragment_earth (sinf : ℚ → ℚ) (toHex : Color → ℕ) (uniforms : Uniforms)
    (framebuffer : Framebuffer) (fragment : Fragment) : Framebuffer :=
  let x := floatToUsize fragment.position.x
  let y := floatToUsize fragment.position.y
  if x < framebuffer.width ∧ y < framebuffer.height then
    let shaded_color := earth_shader sinf fragment uniforms
    let color := toHex shaded_color
    (framebuffer.set_current_color color).point x y fragment.depth
  else
    framebuffer

/-- Embedding of the fragment-processing loop body of `render_uranus`
(main.rs lines 371-405), shading with `uranus_shader`. -/
def process_fragment_uranus (sinf : ℚ → ℚ) (toHex : Color → ℕ) (uniforms : Uniforms)
    (framebuffer : Framebuffer) (fragment : Fragment) : Framebuffer :=
  let x := floatToUsize fragment.position.x
  let y := floatToUsize fragment.position.y
  if x < framebuffer.width ∧ y < framebuffer.height then
    let shaded_color := uranus_shader sinf fragment uniforms
    let color := toHex shaded_color
    (framebuffer.set_current_color color).point x y fragment.depth
  else
    framebuffer

/-- Embedding of the fragment-processing loop body of `render_neptune`
(main.rs lines 408-442), shading with `neptune_shader`. -/
def process_fragment_neptune (sinf : ℚ → ℚ) (toHex : Color → ℕ) (uniforms : Uniforms)
    (framebuffer : Framebuffer) (fragment : Fragment) : Framebuffer :=
  let x := floatToUsize fragment.position.x
  let y := floatToUsize fragment.position.y
  if x < framebuffer.width ∧ y < framebuffer.height then
    let shaded_color := neptune_shader sinf fragment uniforms
    let color := toHex shaded_color
    (framebuffer.set_current_color color).point x y fragment.depth
  else
    framebuffer

/-- Truncation toward zero on ℚ, the rounding mode of Rust
float-to-integer `as` casts. -/
def truncQ (q : ℚ) : ℤ :=
  if 0 ≤ q then ⌊q⌋ else -⌊-q⌋

/-- Rust `f32 as isize`: a saturating cast truncating toward zero. -/
def floatToIsize (q : ℚ) : ℤ :=
  max (-(2 ^ 63)) (min (truncQ q) (2 ^ 63 - 1))

/-- Embedding of the inner loop body of `render_point` (main.rs lines
444-463) for one (dx, dy) offset: inside the disc membership test, the
point write at (px, py) = (x+dx, y+dy) guarded by px ≥ 0, py ≥ 0 and the
width/height bounds, with draw color 0xFFFFFF. -/
def render_point_step (framebuffer : Framebuffer) (position : Vec3) (radius : ℕ)
    (dx dy : ℤ) : Framebuffer :=
  let x := floatToIsize position.x
  let y := floatToIsize position.y
  let radius_squared := (radius : ℤ) ^ 2
  if dx * dx + dy * dy ≤ radius_squared then
    let px := x + dx
    let py := y + dy
    if 0 ≤ px ∧ 0 ≤ py ∧ px.toNat < framebuffer.width ∧ py.toNat < framebuffer.height then
      (framebuffer.set_current_color 0xFFFFFF).point px.toNat py.toNat position.z
    else
      framebuffer
  else
    framebuffer

/-- A concrete all-zero 2D noise sampler, for concrete evaluations. -/
def zero_noise2 : ℚ → ℚ → ℚ :=
  fun _ _ => 0

/-- A concrete all-zero 3D noise sampler, for concrete evaluations. -/
def zero_noise3 : ℚ → ℚ → ℚ → ℚ :=
  fun _ _ _ => 0

/-- A concrete stand-in for the f32 sine used in concrete evaluations; it
agrees with the real f32 sine at the only argument those evaluations
reach, namely 0 (sin 0 = 0 exactly, also in f32). -/
def sin_zero : ℚ → ℚ :=
  fun _ => 0

/-- A concrete stand-in for the seeded StdRng draw, for concrete
evaluations. -/
def rng_zero : ℕ → ℕ :=
  fun _ => 0

/-- A concrete stand-in for `Color::to_hex`, for concrete evaluations. -/
def hex_zero : Color → ℕ :=
  fun _ => 0

/-- Uniforms whose four matrices are all the identity, at frame time 0. -/
def id_uniforms : Uniforms :=
  ⟨mat4Identity, mat4Identity, mat4Identity, mat4Identity, 0, zero_noise2, zero_noise3⟩

/-- Identity-matrix uniforms at frame time 5. -/
def unif_time5 : Uniforms :=
  ⟨mat4Identity, mat4Identity, mat4Identity, mat4Identity, 5, zero_noise2, zero_noise3⟩

/-- A fragment at the shading-space origin with intensity 0. -/
def frag_dark : Fragment :=
  ⟨⟨0, 0, 0⟩, ⟨0, 0, 0⟩, 0, 0⟩

/-- The same fragment as `frag_dark` but with intensity 1. -/
def frag_lit : Fragment :=
  ⟨⟨0, 0, 0⟩, ⟨0, 0, 0⟩, 1, 0⟩

/-- A fragment whose shading-space position is (2, 3). -/
def frag_swap_a : Fragment :=
  ⟨⟨0, 0, 0⟩, ⟨2, 3, 0⟩, 1, 0⟩

/-- A fragment whose shading-space position is (3, 2): same seed product
time·y·x as `frag_swap_a` at any frame time. -/
def frag_swap_b : Fragment :=
  ⟨⟨0, 0, 0⟩, ⟨3, 2, 0⟩, 1, 0⟩

/-- A fragment at screen position (5, 0): out of bounds for a width-2
framebuffer. -/
def frag_oob : Fragment :=
  ⟨⟨5, 0, 0⟩, ⟨0, 0, 0⟩, 1, 3⟩

/-- A fragment at screen position (-3, 1): negative x component. -/
def frag_neg : Fragment :=
  ⟨⟨-3, 1, 0⟩, ⟨0, 0, 0⟩, 1, 3⟩

/-- A fragment at screen position (1, -3): negative y component. -/
def frag_negy : Fragment :=
  ⟨⟨1, -3, 0⟩, ⟨0, 0, 0⟩, 1, 3⟩

/-- A concrete 2×2 framebuffer with all stored depths 5 and draw color 99. -/
def fb_test : Framebuffer :=
  ⟨2, 2, [10, 11, 12, 13], [5, 5, 5, 5], 0, 99, 0⟩

/-- Reading back the cell a `List.set` just wrote returns the new value,
provided the index is within the list. -/
theorem getD_set_self {α : Type} (l : List α) (i : ℕ) (a d : α) (h : i < l.length) :
    (l.set i a).getD i d = a := by
  induction l generalizing i with
  | nil => simp at h
  | cons hd tl ih =>
    cases i with
    | zero => simp [List.set, List.getD]
    | succ n =>
      simp only [List.set, List.getD, List.getElem?_cons_succ]
      have := ih n (by simpa using h)
      simpa [List.getD] using this

/-- Matrix–vector application distributes over the 4×4 matrix product:
applying a product of matrices is applying them in sequence. -/
theorem mat4MulVec_mat4Mul (a b : Mat4) (v : Vec4) :
    mat4MulVec (mat4Mul a b) v = mat4MulVec a (mat4MulVec b v) := by
  simp only [mat4MulVec, mat4Mul, Vec4.mk.injEq]
  refine ⟨by ring, by ring, by ring, by ring⟩

/-- C3: the vertex transform homogenizes the model-space position with
w = 1, takes it to clip space by the matrix chain projection × view ×
model in that order, perspective-divides x, y, z by the clip-space w,
and only then applies the viewport matrix; `transformed_position` is
exactly the result of that pipeline. -/
theorem c3_vertex_transform_pipeline (v : Vertex) (u : Uniforms) :
    (vertex_shader v u).transformed_position =
      vec4ToVec3
        (mat4MulVec u.viewport_matrix
          (perspective_divide (to_clip_space u (homogenize v.position)))) := by
  simp only [vertex_shader, vec4ToVec3, to_clip_space, homogenize, perspective_divide,
    mat4MulVec_mat4Mul]

/-- C5: with all four matrices equal to the identity, the vertex transform
returns the vertex's original model-space position as its
transformed_position, at every frame time and for every noise sampler. -/
theorem c5_identity_fixed_point (v : Vertex) (t : ℕ)
    (n2 : ℚ → ℚ → ℚ) (n3 : ℚ → ℚ → ℚ → ℚ) :
    (vertex_shader v
        ⟨mat4Identity, mat4Identity, mat4Identity, mat4Identity, t, n2, n3⟩).transformed_position
      = v.position := by
  obtain ⟨⟨px, py, pz⟩, n, tc, c, tp, tn⟩ := v
  simp [vertex_shader, mat4Identity, mat4Mul, mat4MulVec]

/-- Unfolding lemma for the color-times-scalar operation. -/
theorem color_mul_def (c : Color) (s : ℚ) : c * s = ⟨c.r * s, c.g * s, c.b * s⟩ :=
  rfl

/-- The determinant is invariant under transposition. -/
theorem mat3Det_transpose (m : Mat3) : mat3Det (mat3Transpose m) = mat3Det m := by
  simp only [mat3Det, mat3Transpose]
  ring

/-- The adjugate-formula inverse is a left inverse whenever the
determinant is nonzero. -/
theorem mat3Inverse_mul (m : Mat3) (h : mat3Det m ≠ 0) :
    mat3Mul (mat3Inverse m) m = mat3Identity := by
  have hd : m.a00 * (m.a11 * m.a22 - m.a12 * m.a21)
      - m.a01 * (m.a10 * m.a22 - m.a12 * m.a20)
      + m.a02 * (m.a10 * m.a21 - m.a11 * m.a20) ≠ 0 := h
  simp only [mat3Mul, mat3Inverse, mat3Identity, mat3Det, Mat3.mk.injEq]
  refine ⟨?_, ?_, ?_, ?_, ?_, ?_, ?_, ?_, ?_⟩ <;> field_simp <;> ring

/-- The adjugate-formula inverse is a right inverse whenever the
determinant is nonzero. -/
theorem mat3Mul_inverse (m : Mat3) (h : mat3Det m ≠ 0) :
    mat3Mul m (mat3Inverse m) = mat3Identity := by
  have hd : m.a00 * (m.a11 * m.a22 - m.a12 * m.a21)
      - m.a01 * (m.a10 * m.a22 - m.a12 * m.a20)
      + m.a02 * (m.a10 * m.a21 - m.a11 * m.a20) ≠ 0 := h
  simp only [mat3Mul, mat3Inverse, mat3Identity, mat3Det, Mat3.mk.injEq]
  refine ⟨?_, ?_, ?_, ?_, ?_, ?_, ?_, ?_, ?_⟩ <;> field_simp <;> ring

/-- C4: the vertex transform's normal matrix is the inverse-transpose of
the model matrix's upper 3×3 block — a two-sided inverse of that block's
transpose — whenever the block is nonsingular, and the identity matrix
when the block is singular; it is applied to the model-space normal by
plain matrix application (no renormalization), and the transform is a
total function. -/
theorem c4_normal_matrix_inverse_transpose (v : Vertex) (u : Uniforms) :
    ∃ N : Mat3,
      (vertex_shader v u).transformed_normal = mat3MulVec N v.normal ∧
      ((mat3Det (mat4ToMat3 u.model_matrix) = 0 ∧ N = mat3Identity) ∨
        (mat3Det (mat4ToMat3 u.model_matrix) ≠ 0 ∧
          mat3Mul N (mat3Transpose (mat4ToMat3 u.model_matrix)) = mat3Identity ∧
          mat3Mul (mat3Transpose (mat4ToMat3 u.model_matrix)) N = mat3Identity)) := by
  refine ⟨(mat3TryInverse (mat3Transpose (mat4ToMat3 u.model_matrix))).getD mat3Identity,
    rfl, ?_⟩
  by_cases hd : mat3Det (mat3Transpose (mat4ToMat3 u.model_matrix)) = 0
  · left
    constructor
    · rw [← mat3Det_transpose]
      exact hd
    · simp [mat3TryInverse, hd]
  · right
    refine ⟨?_, ?_, ?_⟩
    · rw [← mat3Det_transpose]
      exact hd
    · simpa [mat3TryInverse, hd] using mat3Inverse_mul _ hd
    · simpa [mat3TryInverse, hd] using mat3Mul_inverse _ hd

/-- C2: the depth-tested point write accepts a fragment iff its depth is
equal to or nearer than the stored depth (ties favor the most recent
write): a strictly farther depth leaves the whole framebuffer unchanged,
and an equal-or-nearer depth updates both the color and depth cell at
(x,y) to the current draw color and the new depth. -/
theorem c2_point_depth_test (fb : Framebuffer) (x y : ℕ) (depth : ℚ)
    (hb : y * fb.width + x < fb.buffer.length)
    (hz : y * fb.width + x < fb.zbuffer.length) :
    (fb.zbuffer.getD (y * fb.width + x) 0 < depth → fb.point x y depth = fb) ∧
    (depth ≤ fb.zbuffer.getD (y * fb.width + x) 0 →
      (fb.point x y depth).buffer.getD (y * fb.width + x) 0 = fb.current_color ∧
      (fb.point x y depth).zbuffer.getD (y * fb.width + x) 0 = depth) := by
  constructor
  · intro hgt
    simp only [Framebuffer.point]
    rw [if_neg (not_le.mpr hgt)]
  · intro hle
    simp only [Framebuffer.point]
    rw [if_pos hle]
    exact ⟨getD_set_self _ _ _ _ hb, getD_set_self _ _ _ _ hz⟩

/-- C2 witness: on a concrete 2×2 framebuffer with stored depth 5 at cell
(1,0), a point write at depth 3 is accepted and updates that cell. -/
theorem c2_point_depth_test_witness :
    (fb_test.zbuffer.getD (0 * fb_test.width + 1) 0 < 3 → fb_test.point 1 0 3 = fb_test) ∧
    (3 ≤ fb_test.zbuffer.getD (0 * fb_test.width + 1) 0 →
      (fb_test.point 1 0 3).buffer.getD (0 * fb_test.width + 1) 0 = fb_test.current_color ∧
      (fb_test.point 1 0 3).zbuffer.getD (0 * fb_test.width + 1) 0 = 3) :=
  c2_point_depth_test fb_test 1 0 3 (by decide) (by decide)

/-- C6: for every value the active-shader index state actually takes
(every state reachable from the initial index 0 by switch presses),
seven further applications of switch_shader return the selection to that
same value. -/
theorem c6_switch_shader_cycle (s : ℕ) (h : ∃ n : ℕ, switch_shader^[n] 0 = s) :
    switch_shader^[7] s = s := by
  obtain ⟨n, rfl⟩ := h
  have hlt : ∀ m : ℕ, switch_shader^[m] 0 < 7 := by
    intro m
    induction m with
    | zero => decide
    | succ k _ =>
      rw [Function.iterate_succ_apply']
      exact Nat.mod_lt _ (by decide)
  have key : ∀ x : ℕ, x < 7 → switch_shader^[7] x = x := by decide
  exact key _ (hlt n)

/-- C6 witness: the index 3, reached by three switch presses from the
initial state, is restored by seven further presses. -/
theorem c6_switch_shader_cycle_witness : switch_shader^[7] 3 = 3 :=
  c6_switch_shader_cycle 3 ⟨3, by decide⟩

/-- C7: the fragment-shading stage is deterministic — evaluating it twice
on the same fragment, uniforms and shader index (no intervening switch)
gives the identical color — and the time-seeded random black-and-white
variant is reproducible from its seed: any two fragments and uniforms
with the same seed product time · position.y · position.x and the same
intensity receive the same color. -/
theorem c7_shading_two_run_deterministic (rngDraw : ℕ → ℕ) (sinf : ℚ → ℚ)
    (shader_index : ℕ) (f g : Fragment) (u w : Uniforms)
    (hseed : (u.time : ℚ) * f.vertex_position.y * f.vertex_position.x
        = (w.time : ℚ) * g.vertex_position.y * g.vertex_position.x)
    (hint : f.intensity = g.intensity) :
    fragment_shader rngDraw sinf shader_index f u
        = fragment_shader rngDraw sinf shader_index f u ∧
      black_and_white rngDraw f u = black_and_white rngDraw g w := by
  refine ⟨rfl, ?_⟩
  simp only [black_and_white]
  rw [hseed, hint]

/-- C7 witness: fragments at shading positions (2,3) and (3,2) share the
seed product 5·3·2 = 5·2·3 at frame time 5 and get the same color. -/
theorem c7_shading_two_run_deterministic_witness :
    fragment_shader rng_zero sin_zero 5 frag_swap_a unif_time5
        = fragment_shader rng_zero sin_zero 5 frag_swap_a unif_time5 ∧
      black_and_white rng_zero frag_swap_a unif_time5
        = black_and_white rng_zero frag_swap_b unif_time5 :=
  c7_shading_two_run_deterministic rng_zero sin_zero 5 frag_swap_a frag_swap_b
    unif_time5 unif_time5 (by norm_num [unif_time5, frag_swap_a, frag_swap_b]) rfl

/-- C8: in every render function's write loop — render, render_sol, the
seven per-planet renders and render_point — a candidate write whose pixel
coordinates fail the x < width and y < height check (for render_point,
additionally the nonnegativity check) is filtered out before the
Framebuffer's write path: the framebuffer is returned untouched, so no
point write and no draw-state mutation happens for it. -/
theorem c8_out_of_bounds_filtered (rngDraw : ℕ → ℕ) (sinf cosf : ℚ → ℚ)
    (shader_index : ℕ) (toHex : Color → ℕ) (uniforms : Uniforms)
    (fb : Framebuffer) (fragment : Fragment)
    (position : Vec3) (radius : ℕ) (dx dy : ℤ)
    (h : ¬ (floatToUsize fragment.position.x < fb.width ∧
        floatToUsize fragment.position.y < fb.height))
    (hp : ¬ (0 ≤ floatToIsize position.x + dx ∧ 0 ≤ floatToIsize position.y + dy ∧
        (floatToIsize position.x + dx).toNat < fb.width ∧
        (floatToIsize position.y + dy).toNat < fb.height)) :
    process_fragment rngDraw sinf shader_index toHex uniforms fb fragment = fb ∧
    process_fragment_sol toHex uniforms fb fragment = fb ∧
    process_fragment_venus sinf cosf toHex uniforms fb fragment = fb ∧
    process_fragment_jupiter sinf toHex uniforms fb fragment = fb ∧
    process_fragment_saturn sinf toHex uniforms fb fragment = fb ∧
    process_fragment_mars sinf toHex uniforms fb fragment = fb ∧
    process_fragment_earth sinf toHex uniforms fb fragment = fb ∧
    process_fragment_uranus sinf toHex uniforms fb fragment = fb ∧
    process_fragment_neptune sinf toHex uniforms fb fragment = fb ∧
    render_point_step fb position radius dx dy = fb := by
  refine ⟨?_, ?_, ?_, ?_, ?_, ?_, ?_, ?_, ?_, ?_⟩
  · simp only [process_fragment]
    rw [if_neg h]
  · simp only [process_fragment_sol]
    rw [if_neg h]
  · simp only [process_fragment_venus]
    rw [if_neg h]
  · simp only [process_fragment_jupiter]
    rw [if_neg h]
  · simp only [process_fragment_saturn]
    rw [if_neg h]
  · simp only [process_fragment_mars]
    rw [if_neg h]
  · simp only [process_fragment_earth]
    rw [if_neg h]
  · simp only [process_fragment_uranus]
    rw [if_neg h]
  · simp only [process_fragment_neptune]
    rw [if_neg h]
  · simp only [render_point_step]
    split_ifs <;> rfl

/-- C8 witness: the candidate write at screen x = 5 is discarded by the
width-2 framebuffer in all ten render loops. -/
theorem c8_out_of_bounds_filtered_witness :
    process_fragment rng_zero sin_zero 0 hex_zero id_uniforms fb_test frag_oob = fb_test ∧
    process_fragment_sol hex_zero id_uniforms fb_test frag_oob = fb_test ∧
    process_fragment_venus sin_zero sin_zero hex_zero id_uniforms fb_test frag_oob = fb_test ∧
    process_fragment_jupiter sin_zero hex_zero id_uniforms fb_test frag_oob = fb_test ∧
    process_fragment_saturn sin_zero hex_zero id_uniforms fb_test frag_oob = fb_test ∧
    process_fragment_mars sin_zero hex_zero id_uniforms fb_test frag_oob = fb_test ∧
    process_fragment_earth sin_zero hex_zero id_uniforms fb_test frag_oob = fb_test ∧
    process_fragment_uranus sin_zero hex_zero id_uniforms fb_test frag_oob = fb_test ∧
    process_fragment_neptune sin_zero hex_zero id_uniforms fb_test frag_oob = fb_test ∧
    render_point_step fb_test frag_oob.position 1 0 0 = fb_test :=
  c8_out_of_bounds_filtered rng_zero sin_zero sin_zero 0 hex_zero id_uniforms fb_test frag_oob
    frag_oob.position 1 0 0 (by decide) (by decide)

/-- A negative rational converts to usize 0 under the saturating cast. -/
theorem floatToUsize_of_neg {q : ℚ} (h : q < 0) : floatToUsize q = 0 := by
  have hf : ⌊q⌋ < 0 := by
    exact_mod_cast lt_of_le_of_lt (Int.floor_le q) h
  simp [floatToUsize, Int.toNat_of_nonpos hf.le]

/-- C10: in every fragment-processing render loop, a fragment `f` with
negative floating-point screen x saturates to usize column 0 and a
fragment `g` with negative screen y saturates to usize row 0; each passes
the bounds check (given the other coordinate in range and a nonempty
clamped dimension) and is written at the border pixel through the normal
shaded point write instead of being discarded. -/
theorem c10_negative_coordinate_clamped (rngDraw : ℕ → ℕ) (sinf cosf : ℚ → ℚ)
    (shader_index : ℕ) (toHex : Color → ℕ) (uniforms : Uniforms)
    (fb : Framebuffer) (f g : Fragment)
    (hfx : f.position.x < 0)
    (hfy : floatToUsize f.position.y < fb.height)
    (hw : 0 < fb.width)
    (hgy : g.position.y < 0)
    (hgx : floatToUsize g.position.x < fb.width)
    (hh : 0 < fb.height) :
    floatToUsize f.position.x = 0 ∧
    floatToUsize g.position.y = 0 ∧
    process_fragment rngDraw sinf shader_index toHex uniforms fb f =
      (fb.set_current_color
          (toHex (fragment_shader rngDraw sinf shader_index f uniforms))).point
        0 (floatToUsize f.position.y) f.depth ∧
    process_fragment rngDraw sinf shader_index toHex uniforms fb g =
      (fb.set_current_color
          (toHex (fragment_shader rngDraw sinf shader_index g uniforms))).point
        (floatToUsize g.position.x) 0 g.depth ∧
    process_fragment_sol toHex uniforms fb f =
      ((fb.set_current_color
            (toHex (fragment_shader2 f uniforms))).set_emission_color 0xFFFF00).point
        0 (floatToUsize f.position.y) f.depth ∧
    process_fragment_sol toHex uniforms fb g =
      ((fb.set_current_color
            (toHex (fragment_shader2 g uniforms))).set_emission_color 0xFFFF00).point
        (floatToUsize g.position.x) 0 g.depth ∧
    process_fragment_venus sinf cosf toHex uniforms fb f =
      (fb.set_current_color (toHex (venus_shader sinf cosf f uniforms))).point
        0 (floatToUsize f.position.y) f.depth ∧
    process_fragment_venus sinf cosf toHex uniforms fb g =
      (fb.set_current_color (toHex (venus_shader sinf cosf g uniforms))).point
        (floatToUsize g.position.x) 0 g.depth ∧
    process_fragment_jupiter sinf toHex uniforms fb f =
      (fb.set_current_color (toHex (jupiter_shader sinf f uniforms))).point
        0 (floatToUsize f.position.y) f.depth ∧
    process_fragment_jupiter sinf toHex uniforms fb g =
      (fb.set_current_color (toHex (jupiter_shader sinf g uniforms))).point
        (floatToUsize g.position.x) 0 g.depth ∧
    process_fragment_saturn sinf toHex uniforms fb f =
      (fb.set_current_color (toHex (saturn_shader sinf f uniforms))).point
        0 (floatToUsize f.position.y) f.depth ∧
    process_fragment_saturn sinf toHex uniforms fb g =
      (fb.set_current_color (toHex (saturn_shader sinf g uniforms))).point
        (floatToUsize g.position.x) 0 g.depth ∧
    process_fragment_mars sinf toHex uniforms fb f =
      (fb.set_current_color (toHex (mars_shader sinf f uniforms))).point
        0 (floatToUsize f.position.y) f.depth ∧
    process_fragment_mars sinf toHex uniforms fb g =
      (fb.set_current_color (toHex (mars_shader sinf g uniforms))).point
        (floatToUsize g.position.x) 0 g.depth ∧
    process_fragment_earth sinf toHex uniforms fb f =
      (fb.set_current_color (toHex (earth_shader sinf f uniforms))).point
        0 (floatToUsize f.position.y) f.depth ∧
    process_fragment_earth sinf toHex uniforms fb g =
      (fb.set_current_color (toHex (earth_shader sinf g uniforms))).point
        (floatToUsize g.position.x) 0 g.depth ∧
    process_fragment_uranus sinf toHex uniforms fb f =
      (fb.set_current_color (toHex (uranus_shader sinf f uniforms))).point
        0 (floatToUsize f.position.y) f.depth ∧
    process_fragment_uranus sinf toHex uniforms fb g =
      (fb.set_current_color (toHex (uranus_shader sinf g uniforms))).point
        (floatToUsize g.position.x) 0 g.depth ∧
    process_fragment_neptune sinf toHex uniforms fb f =
      (fb.set_current_color (toHex (neptune_shader sinf f uniforms))).point
        0 (floatToUsize f.position.y) f.depth ∧
    process_fragment_neptune sinf toHex uniforms fb g =
      (fb.set_current_color (toHex (neptune_shader sinf g uniforms))).point
        (floatToUsize g.position.x) 0 g.depth := by
  have h0f := floatToUsize_of_neg hfx
  have h0g := floatToUsize_of_neg hgy
  refine ⟨h0f, h0g, ?_, ?_, ?_, ?_, ?_, ?_, ?_, ?_, ?_, ?_, ?_, ?_, ?_, ?_, ?_, ?_, ?_, ?_⟩
  · simp only [process_fragment, h0f]
    rw [if_pos ⟨hw, hfy⟩]
  · simp only [process_fragment, h0g]
    rw [if_pos ⟨hgx, hh⟩]
  · simp only [process_fragment_sol, h0f]
    rw [if_pos ⟨hw, hfy⟩]
  · simp only [process_fragment_sol, h0g]
    rw [if_pos ⟨hgx, hh⟩]
  · simp only [process_fragment_venus, h0f]
    rw [if_pos ⟨hw, hfy⟩]
  · simp only [process_fragment_venus, h0g]
    rw [if_pos ⟨hgx, hh⟩]
  · simp only [process_fragment_jupiter, h0f]
    rw [if_pos ⟨hw, hfy⟩]
  · simp only [process_fragment_jupiter, h0g]
    rw [if_pos ⟨hgx, hh⟩]
  · simp only [process_fragment_saturn, h0f]
    rw [if_pos ⟨hw, hfy⟩]
  · simp only [process_fragment_saturn, h0g]
    rw [if_pos ⟨hgx, hh⟩]
  · simp only [process_fragment_mars, h0f]
    rw [if_pos ⟨hw, hfy⟩]
  · simp only [process_fragment_mars, h0g]
    rw [if_pos ⟨hgx, hh⟩]
  · simp only [process_fragment_earth, h0f]
    rw [if_pos ⟨hw, hfy⟩]
  · simp only [process_fragment_earth, h0g]
    rw [if_pos ⟨hgx, hh⟩]
  · simp only [process_fragment_uranus, h0f]
    rw [if_pos ⟨hw, hfy⟩]
  · simp only [process_fragment_uranus, h0g]
    rw [if_pos ⟨hgx, hh⟩]
  · simp only [process_fragment_neptune, h0f]
    rw [if_pos ⟨hw, hfy⟩]
  · simp only [process_fragment_neptune, h0g]
    rw [if_pos ⟨hgx, hh⟩]

/-- C10 witness: on the 2×2 framebuffer, the fragment at screen position
(-3, 1) is written at pixel (0, 1) and the fragment at (1, -3) is written
at pixel (1, 0) in all nine fragment loops, instead of being discarded. -/
theorem c10_negative_coordinate_clamped_witness :
    floatToUsize frag_neg.position.x = 0 ∧
    floatToUsize frag_negy.position.y = 0 ∧
    process_fragment rng_zero sin_zero 0 hex_zero id_uniforms fb_test frag_neg =
      (fb_test.set_current_color
          (hex_zero (fragment_shader rng_zero sin_zero 0 frag_neg id_uniforms))).point
        0 (floatToUsize frag_neg.position.y) frag_neg.depth ∧
    process_fragment rng_zero sin_zero 0 hex_zero id_uniforms fb_test frag_negy =
      (fb_test.set_current_color
          (hex_zero (fragment_shader rng_zero sin_zero 0 frag_negy id_uniforms))).point
        (floatToUsize frag_negy.position.x) 0 frag_negy.depth ∧
    process_fragment_sol hex_zero id_uniforms fb_test frag_neg =
      ((fb_test.set_current_color
            (hex_zero (fragment_shader2 frag_neg id_uniforms))).set_emission_color 0xFFFF00).point
        0 (floatToUsize frag_neg.position.y) frag_neg.depth ∧
    process_fragment_sol hex_zero id_uniforms fb_test frag_negy =
      ((fb_test.set_current_color
            (hex_zero (fragment_shader2 frag_negy id_uniforms))).set_emission_color 0xFFFF00).point
        (floatToUsize frag_negy.position.x) 0 frag_negy.depth ∧
    process_fragment_venus sin_zero sin_zero hex_zero id_uniforms fb_test frag_neg =
      (fb_test.set_current_color (hex_zero (venus_shader sin_zero sin_zero frag_neg id_uniforms))).point
        0 (floatToUsize frag_neg.position.y) frag_neg.depth ∧
    process_fragment_venus sin_zero sin_zero hex_zero id_uniforms fb_test frag_negy =
      (fb_test.set_current_color (hex_zero (venus_shader sin_zero sin_zero frag_negy id_uniforms))).point
        (floatToUsize frag_negy.position.x) 0 frag_negy.depth ∧
    process_fragment_jupiter sin_zero hex_zero id_uniforms fb_test frag_neg =
      (fb_test.set_current_color (hex_zero (jupiter_shader sin_zero frag_neg id_uniforms))).point
        0 (floatToUsize frag_neg.position.y) frag_neg.depth ∧
    process_fragment_jupiter sin_zero hex_zero id_uniforms fb_test frag_negy =
      (fb_test.set_current_color (hex_zero (jupiter_shader sin_zero frag_negy id_uniforms))).point
        (floatToUsize frag_negy.position.x) 0 frag_negy.depth ∧
    process_fragment_saturn sin_zero hex_zero id_uniforms fb_test frag_neg =
      (fb_test.set_current_color (hex_zero (saturn_shader sin_zero frag_neg id_uniforms))).point
        0 (floatToUsize frag_neg.position.y) frag_neg.depth ∧
    process_fragment_saturn sin_zero hex_zero id_uniforms fb_test frag_negy =
      (fb_test.set_current_color (hex_zero (saturn_shader sin_zero frag_negy id_uniforms))).point
        (floatToUsize frag_negy.position.x) 0 frag_negy.depth ∧
    process_fragment_mars sin_zero hex_zero id_uniforms fb_test frag_neg =
      (fb_test.set_current_color (hex_zero (mars_shader sin_zero frag_neg id_uniforms))).point
        0 (floatToUsize frag_neg.position.y) frag_neg.depth ∧
    process_fragment_mars sin_zero hex_zero id_uniforms fb_test frag_negy =
      (fb_test.set_current_color (hex_zero (mars_shader sin_zero frag_negy id_uniforms))).point
        (floatToUsize frag_negy.position.x) 0 frag_negy.depth ∧
    process_fragment_earth sin_zero hex_zero id_uniforms fb_test frag_neg =
      (fb_test.set_current_color (hex_zero (earth_shader sin_zero frag_neg id_uniforms))).point
        0 (floatToUsize frag_neg.position.y) frag_neg.depth ∧
    process_fragment_earth sin_zero hex_zero id_uniforms fb_test frag_negy =
      (fb_test.set_current_color (hex_zero (earth_shader sin_zero frag_negy id_uniforms))).point
        (floatToUsize frag_negy.position.x) 0 frag_negy.depth ∧
    process_fragment_uranus sin_zero hex_zero id_uniforms fb_test frag_neg =
      (fb_test.set_current_color (hex_zero (uranus_shader sin_zero frag_neg id_uniforms))).point
        0 (floatToUsize frag_neg.position.y) frag_neg.depth ∧
    process_fragment_uranus sin_zero hex_zero id_uniforms fb_test frag_negy =
      (fb_test.set_current_color (hex_zero (uranus_shader sin_zero frag_negy id_uniforms))).point
        (floatToUsize frag_negy.position.x) 0 frag_negy.depth ∧
    process_fragment_neptune sin_zero hex_zero id_uniforms fb_test frag_neg =
      (fb_test.set_current_color (hex_zero (neptune_shader sin_zero frag_neg id_uniforms))).point
        0 (floatToUsize frag_neg.position.y) frag_neg.depth ∧
    process_fragment_neptune sin_zero hex_zero id_uniforms fb_test frag_negy =
      (fb_test.set_current_color (hex_zero (neptune_shader sin_zero frag_negy id_uniforms))).point
        (floatToUsize frag_negy.position.x) 0 frag_negy.depth :=
  c10_negative_coordinate_clamped rng_zero sin_zero sin_zero 0 hex_zero id_uniforms fb_test
    frag_neg frag_negy (by decide) (by decide) (by decide) (by decide) (by decide) (by decide)

/-- C9: a shader index of 0 — or any index outside 1..=6 — falls through
the dispatch's silent default arm and yields exactly the cellular
variant's color; in particular dispatch at index 0 and at index 3 agree
on every fragment and uniforms. -/
theorem c9_default_dispatch_is_cellular (rngDraw : ℕ → ℕ) (sinf : ℚ → ℚ)
    (fragment : Fragment) (uniforms : Uniforms) (s : ℕ)
    (h : s = 0 ∨ ¬ (1 ≤ s ∧ s ≤ 6)) :
    fragment_shader rngDraw sinf s fragment uniforms = cellular_shader fragment uniforms ∧
    fragment_shader rngDraw sinf 0 fragment uniforms
      = fragment_shader rngDraw sinf 3 fragment uniforms := by
  have hs : s = 0 ∨ 7 ≤ s := by omega
  refine ⟨?_, rfl⟩
  rcases hs with rfl | hs
  · rfl
  · obtain ⟨n, rfl⟩ : ∃ n, s = n + 7 := ⟨s - 7, by omega⟩
    rfl

/-- C9 witness: index 9 (outside 1..=6) dispatches to the cellular
variant, and index 0 agrees with index 3. -/
theorem c9_default_dispatch_is_cellular_witness :
    fragment_shader rng_zero sin_zero 9 frag_dark id_uniforms
        = cellular_shader frag_dark id_uniforms ∧
      fragment_shader rng_zero sin_zero 0 frag_dark id_uniforms
        = fragment_shader rng_zero sin_zero 3 frag_dark id_uniforms :=
  c9_default_dispatch_is_cellular rng_zero sin_zero frag_dark id_uniforms 9 (by decide)

/-- C1 counterexample: earth_shader (a banded planet variant the claim
covers) does not end by scaling or blending with fragment.intensity — at
the shading origin with frame time 0 (where the f32 sine is exactly 0,
as `sin_zero` is) it returns the same land color (34,139,34) at
intensity 0 as at intensity 1, and that output differs from the color
scaled by the fragment's intensity. -/
theorem c1_counterexample :
    earth_shader sin_zero frag_dark id_uniforms = earth_shader sin_zero frag_lit id_uniforms ∧
    frag_dark.intensity = 0 ∧
    frag_lit.intensity = 1 ∧
    earth_shader sin_zero frag_dark id_uniforms = ⟨34, 139, 34⟩ ∧
    (⟨34, 139, 34⟩ : Color) * frag_dark.intensity ≠ (⟨34, 139, 34⟩ : Color) := by
  refine ⟨rfl, rfl, rfl, ?_, ?_⟩
  · simp only [earth_shader, sin_zero, frag_dark, id_uniforms, clampQ, min_def, max_def]
    norm_num
  · simp [frag_dark, color_mul_def]

/-- C1 as amended: the noise-driven dispatch variants all end by scaling
their pattern color with fragment.intensity, and the emissive variant
blends toward an intensity-scaled emission color; but the banded planet
shaders (earth, uranus, neptune, venus, jupiter, saturn, mars) ignore
fragment.intensity entirely, returning their pattern color unscaled. -/
theorem c1_amended_intensity_integration :
    (∀ (rngDraw : ℕ → ℕ) (sinf : ℚ → ℚ) (s : ℕ) (f : Fragment) (u : Uniforms),
        ∃ c : Color, fragment_shader rngDraw sinf s f u = c * f.intensity) ∧
    (∀ (f : Fragment) (u : Uniforms),
        fragment_shader2 f u =
          Color.lerp ⟨255, 223, 0⟩ ((⟨255, 255, 102⟩ : Color) * (f.intensity * 2)) 0.9) ∧
    (∀ (sinf cosf : ℚ → ℚ) (f : Fragment) (u : Uniforms) (i : ℚ),
        earth_shader sinf { f with intensity := i } u = earth_shader sinf f u ∧
        uranus_shader sinf { f with intensity := i } u = uranus_shader sinf f u ∧
        neptune_shader sinf { f with intensity := i } u = neptune_shader sinf f u ∧
        venus_shader sinf cosf { f with intensity := i } u = venus_shader sinf cosf f u ∧
        jupiter_shader sinf { f with intensity := i } u = jupiter_shader sinf f u ∧
        saturn_shader sinf { f with intensity := i } u = saturn_shader sinf f u ∧
        mars_shader sinf { f with intensity := i } u = mars_shader sinf f u) := by
  refine ⟨?_, fun f u => rfl, fun sinf cosf f u i => ⟨rfl, rfl, rfl, rfl, rfl, rfl, rfl⟩⟩
  intro rngDraw sinf s f u
  rcases s with _ | _ | _ | _ | _ | _ | _ | n <;> exact ⟨_, rfl⟩

end SpaceTravel
